import Mathlib

/-!
Verification of the Cropz soil-texture wizard: the texture classifier
(`predictSoilTexture`) and the wizard controller (`currentStep`, `stepIndex`,
`goBack`, `reset`, and the step-gated answer buttons modelled as
`applyAnswer`), shallowly embedded from the `SoilTextureWizard` component.
-/

namespace Cropz

/-- `type FormsBallAnswer = "yes" | "no"`. -/
inductive FormsBallAnswer
  | yes
  | no
deriving DecidableEq, Fintype, Repr

/-- `type RibbonLengthAnswer = "none" | "<1" | "1-2" | ">2"`.
`noRibbon` stands for `"none"`, `short` for `"<1"`, `moderate` for `"1-2"`,
`long` for `">2"`. -/
inductive RibbonLengthAnswer
  | noRibbon
  | short
  | moderate
  | long
deriving DecidableEq, Fintype, Repr

/-- `type FeelAnswer = "gritty" | "balanced" | "smooth"`. -/
inductive FeelAnswer
  | gritty
  | balanced
  | smooth
deriving DecidableEq, Fintype, Repr

/-- `type WizardStep = "formsBall" | "ribbonLength" | "feel" | "result"`. -/
inductive WizardStep
  | formsBall
  | ribbonLength
  | feel
  | result
deriving DecidableEq, Fintype, Repr

/-- `interface Answers` — three optional fields; an absent TypeScript field
is `Option.none`. -/
structure Answers where
  formsBall : Option FormsBallAnswer
  ribbonLength : Option RibbonLengthAnswer
  feel : Option FeelAnswer
deriving DecidableEq, Fintype, Repr

/-- `interface PredictionResult { texture: string; explanation: string }`. -/
structure PredictionResult where
  texture : String
  explanation : String
deriving DecidableEq, Repr

/-- `function predictSoilTexture(answers: Answers): PredictionResult | null`,
transcribed from the source including its early-return chain and the exact
texture and explanation strings. -/
def predictSoilTexture (answers : Answers) : Option PredictionResult :=
  if answers.formsBall = Option.none then Option.none
  else if answers.formsBall = some FormsBallAnswer.no then
    some { texture := "Sand",
           explanation := "Soil does not remain in a ball when squeezed, indicating very low clay and organic matter with dominant sand-sized particles." }
  else if answers.ribbonLength = Option.none then Option.none
  else if answers.ribbonLength = some RibbonLengthAnswer.noRibbon then
    some { texture := "Loamy sand",
           explanation := "Forms a ball but no ribbon when pressed; indicates very low clay with some silt and sand providing slight cohesion." }
  else if answers.feel = Option.none then Option.none
  else if answers.ribbonLength = some RibbonLengthAnswer.short then
    if answers.feel = some FeelAnswer.gritty then
      some { texture := "Sandy loam",
             explanation := "Short ribbon with distinctly gritty feel suggests sand-dominant matrix with modest fines." }
    else if answers.feel = some FeelAnswer.smooth then
      some { texture := "Silt loam",
             explanation := "Short ribbon and very smooth, flour-like feel indicates higher silt content." }
    else
      some { texture := "Loam",
             explanation := "Short ribbon with balanced gritty and smooth feel indicates relatively even sand, silt, and clay." }
  else if answers.ribbonLength = some RibbonLengthAnswer.moderate then
    if answers.feel = some FeelAnswer.gritty then
      some { texture := "Sandy clay loam",
             explanation := "Moderate ribbon and gritty feel indicates clay loam with notable sand fraction." }
    else if answers.feel = some FeelAnswer.smooth then
      some { texture := "Silty clay loam",
             explanation := "Moderate ribbon with very smooth feel indicates clay loam enriched in silt." }
    else
      some { texture := "Clay loam",
             explanation := "Moderate ribbon and balanced feel suggests a clay loam with mixed particle sizes." }
  else if answers.ribbonLength = some RibbonLengthAnswer.long then
    if answers.feel = some FeelAnswer.gritty then
      some { texture := "Sandy clay",
             explanation := "Long ribbon with gritty feel indicates high clay content with significant sand fraction." }
    else if answers.feel = some FeelAnswer.smooth then
      some { texture := "Silty clay",
             explanation := "Long ribbon and very smooth feel indicates high clay with substantial silt fraction." }
    else
      some { texture := "Clay",
             explanation := "Long ribbon and balanced feel indicates high clay content." }
  else Option.none

/-- The memoized `currentStep` derivation of the wizard component. -/
def currentStep (answers : Answers) : WizardStep :=
  if answers.formsBall = Option.none then WizardStep.formsBall
  else if answers.formsBall = some FormsBallAnswer.no then WizardStep.result
  else if answers.ribbonLength = Option.none then WizardStep.ribbonLength
  else if answers.ribbonLength = some RibbonLengthAnswer.noRibbon then WizardStep.result
  else if answers.feel = Option.none then WizardStep.feel
  else WizardStep.result

/-- The memoized `stepIndex` derivation of the wizard component. -/
def stepIndex (step : WizardStep) : Nat :=
  if step = WizardStep.formsBall then 1
  else if step = WizardStep.ribbonLength then 2
  else if step = WizardStep.feel then 3
  else 4

/-- `const reset = () => setAnswers({})` — replaces the current answer set
with the empty one. -/
def reset (_ : Answers) : Answers :=
  { formsBall := Option.none, ribbonLength := Option.none, feel := Option.none }

/-- `const goBack = () => ...` — clears one answer field depending on the
current step, transcribed from the source branch for branch. -/
def goBack (answers : Answers) : Answers :=
  if currentStep answers = WizardStep.formsBall then answers
  else if currentStep answers = WizardStep.ribbonLength then
    { answers with formsBall := Option.none }
  else if currentStep answers = WizardStep.feel then
    { answers with ribbonLength := Option.none }
  else if answers.formsBall = some FormsBallAnswer.no then
    { answers with formsBall := Option.none }
  else if answers.ribbonLength = some RibbonLengthAnswer.noRibbon then
    { answers with ribbonLength := Option.none }
  else { answers with feel := Option.none }

/-- A user selection: one answer value for one question field. -/
inductive AnswerValue
  | fb (v : FormsBallAnswer)
  | rb (v : RibbonLengthAnswer)
  | fl (v : FeelAnswer)
deriving DecidableEq, Fintype, Repr

/-- The answer-setting operation of the wizard. Each option button calls
`setAnswers((prev) => ({ ...prev, field: v }))`, but the button for a field
is rendered only inside the `currentStep === field` block of the component,
so a selection event for a field takes effect exactly when the derived step
asks that field and is a no-op otherwise. -/
def applyAnswer (answers : Answers) : AnswerValue → Answers
  | AnswerValue.fb v =>
      if currentStep answers = WizardStep.formsBall then
        { answers with formsBall := some v }
      else answers
  | AnswerValue.rb v =>
      if currentStep answers = WizardStep.ribbonLength then
        { answers with ribbonLength := some v }
      else answers
  | AnswerValue.fl v =>
      if currentStep answers = WizardStep.feel then
        { answers with feel := some v }
      else answers

/-- The ordering invariant of the answer set: `ribbonLength` is set only
when `formsBall = yes`, and `feel` is set only when `ribbonLength` is one of
`short`, `moderate`, `long`. -/
def Invariant (a : Answers) : Prop :=
  (a.ribbonLength ≠ Option.none → a.formsBall = some FormsBallAnswer.yes) ∧
  (a.feel ≠ Option.none →
    (a.ribbonLength = some RibbonLengthAnswer.short ∨
     a.ribbonLength = some RibbonLengthAnswer.moderate ∨
     a.ribbonLength = some RibbonLengthAnswer.long))

instance (a : Answers) : Decidable (Invariant a) := by
  unfold Invariant
  infer_instance

/-- Answer sets reachable from the empty answer set through the wizard's
mutation operations. -/
inductive Reachable : Answers → Prop
  | empty : Reachable { formsBall := Option.none, ribbonLength := Option.none, feel := Option.none }
  | answer (a : Answers) (fv : AnswerValue) : Reachable a → Reachable (applyAnswer a fv)
  | back (a : Answers) : Reachable a → Reachable (goBack a)
  | restart (a : Answers) : Reachable a → Reachable (reset a)

/-- `undone A0 A' fv` says the field selected by `fv` is unset in `A'` and
every field asked before it keeps its value from `A0`. -/
def undone (A0 A' : Answers) : AnswerValue → Prop
  | AnswerValue.fb _ => A'.formsBall = Option.none
  | AnswerValue.rb _ =>
      A'.ribbonLength = Option.none ∧ A'.formsBall = A0.formsBall
  | AnswerValue.fl _ =>
      A'.feel = Option.none ∧ A'.formsBall = A0.formsBall ∧
        A'.ribbonLength = A0.ribbonLength

instance (A0 A' : Answers) (fv : AnswerValue) : Decidable (undone A0 A' fv) := by
  cases fv <;> unfold undone <;> infer_instance

/-- `clearsExactlyOne a b` says `b` agrees with `a` on all fields except one,
which was set in `a` and is unset in `b`. -/
def clearsExactlyOne (a b : Answers) : Prop :=
  (b.formsBall = Option.none ∧ a.formsBall ≠ Option.none ∧
     b.ribbonLength = a.ribbonLength ∧ b.feel = a.feel) ∨
  (b.formsBall = a.formsBall ∧ b.ribbonLength = Option.none ∧
     a.ribbonLength ≠ Option.none ∧ b.feel = a.feel) ∨
  (b.formsBall = a.formsBall ∧ b.ribbonLength = a.ribbonLength ∧
     b.feel = Option.none ∧ a.feel ≠ Option.none)

instance (a b : Answers) : Decidable (clearsExactlyOne a b) := by
  unfold clearsExactlyOne
  infer_instance

/-- Every reachable answer set satisfies the ordering invariant; proved by
induction over the reachability derivation, with each preservation step
checked over the whole finite answer domain. -/
lemma invariant_of_reachable (a : Answers) (h : Reachable a) : Invariant a := by
  induction h with
  | empty => decide
  | answer a fv _ ih =>
      exact (by decide : ∀ (a : Answers) (fv : AnswerValue),
        Invariant a → Invariant (applyAnswer a fv)) a fv ih
  | back a _ ih =>
      exact (by decide : ∀ a : Answers, Invariant a → Invariant (goBack a)) a ih
  | restart a _ _ =>
      exact (by decide : ∀ a : Answers, Invariant (reset a)) a

/-- Claim C1: for every answer set with sufficient answers,
`predictSoilTexture` returns exactly the row of the 11-row truth table
(`formsBall = no` maps to Sand; `yes` with no ribbon to Loamy sand; short,
moderate and long ribbons combined with gritty, smooth or balanced feel map
to the nine remaining USDA classes), each paired with its fixed,
texture-specific explanation string. -/
theorem C1_truth_table :
    (∀ (r : Option RibbonLengthAnswer) (f : Option FeelAnswer),
      predictSoilTexture ⟨some FormsBallAnswer.no, r, f⟩ =
        some ⟨"Sand", "Soil does not remain in a ball when squeezed, indicating very low clay and organic matter with dominant sand-sized particles."⟩) ∧
    (∀ f : Option FeelAnswer,
      predictSoilTexture ⟨some FormsBallAnswer.yes, some RibbonLengthAnswer.noRibbon, f⟩ =
        some ⟨"Loamy sand", "Forms a ball but no ribbon when pressed; indicates very low clay with some silt and sand providing slight cohesion."⟩) ∧
    predictSoilTexture ⟨some FormsBallAnswer.yes, some RibbonLengthAnswer.short, some FeelAnswer.gritty⟩ =
      some ⟨"Sandy loam", "Short ribbon with distinctly gritty feel suggests sand-dominant matrix with modest fines."⟩ ∧
    predictSoilTexture ⟨some FormsBallAnswer.yes, some RibbonLengthAnswer.short, some FeelAnswer.smooth⟩ =
      some ⟨"Silt loam", "Short ribbon and very smooth, flour-like feel indicates higher silt content."⟩ ∧
    predictSoilTexture ⟨some FormsBallAnswer.yes, some RibbonLengthAnswer.short, some FeelAnswer.balanced⟩ =
      some ⟨"Loam", "Short ribbon with balanced gritty and smooth feel indicates relatively even sand, silt, and clay."⟩ ∧
    predictSoilTexture ⟨some FormsBallAnswer.yes, some RibbonLengthAnswer.moderate, some FeelAnswer.gritty⟩ =
      some ⟨"Sandy clay loam", "Moderate ribbon and gritty feel indicates clay loam with notable sand fraction."⟩ ∧
    predictSoilTexture ⟨some FormsBallAnswer.yes, some RibbonLengthAnswer.moderate, some FeelAnswer.smooth⟩ =
      some ⟨"Silty clay loam", "Moderate ribbon with very smooth feel indicates clay loam enriched in silt."⟩ ∧
    predictSoilTexture ⟨some FormsBallAnswer.yes, some RibbonLengthAnswer.moderate, some FeelAnswer.balanced⟩ =
      some ⟨"Clay loam", "Moderate ribbon and balanced feel suggests a clay loam with mixed particle sizes."⟩ ∧
    predictSoilTexture ⟨some FormsBallAnswer.yes, some RibbonLengthAnswer.long, some FeelAnswer.gritty⟩ =
      some ⟨"Sandy clay", "Long ribbon with gritty feel indicates high clay content with significant sand fraction."⟩ ∧
    predictSoilTexture ⟨some FormsBallAnswer.yes, some RibbonLengthAnswer.long, some FeelAnswer.smooth⟩ =
      some ⟨"Silty clay", "Long ribbon and very smooth feel indicates high clay with substantial silt fraction."⟩ ∧
    predictSoilTexture ⟨some FormsBallAnswer.yes, some RibbonLengthAnswer.long, some FeelAnswer.balanced⟩ =
      some ⟨"Clay", "Long ribbon and balanced feel indicates high clay content."⟩ := by
  decide

/-- Claim C2: over the whole enum domain, `predictSoilTexture` returns
`none` exactly when the derived wizard step is not `result`; equivalently,
exactly when `formsBall` is unset, or `formsBall = yes` with `ribbonLength`
unset, or `formsBall = yes` with a short, moderate or long ribbon and
`feel` unset. In every other case it returns one classification result. -/
theorem C2_null_iff_not_result :
    ∀ a : Answers,
      (predictSoilTexture a = Option.none ↔ currentStep a ≠ WizardStep.result) ∧
      (predictSoilTexture a = Option.none ↔
        (a.formsBall = Option.none ∨
         (a.formsBall = some FormsBallAnswer.yes ∧ a.ribbonLength = Option.none) ∨
         (a.formsBall = some FormsBallAnswer.yes ∧
          (a.ribbonLength = some RibbonLengthAnswer.short ∨
           a.ribbonLength = some RibbonLengthAnswer.moderate ∨
           a.ribbonLength = some RibbonLengthAnswer.long) ∧
          a.feel = Option.none))) := by
  decide

/-- Claim C3: `currentStep` follows the specified else-chain (ask
`formsBall` when unset; `result` on a `no` ball; ask `ribbonLength` when
unset; `result` on no ribbon; ask `feel` when unset; else `result`), the
progress index maps the four steps to 1, 2, 3, 4 out of 4, the index lies
in `{1, 2, 3, 4}` for every answer set (hence for every reachable one), and
both shortcut paths still report step 4. -/
theorem C3_step_derivation_and_index :
    (∀ a : Answers, a.formsBall = Option.none → currentStep a = WizardStep.formsBall) ∧
    (∀ a : Answers, a.formsBall = some FormsBallAnswer.no → currentStep a = WizardStep.result) ∧
    (∀ a : Answers, a.formsBall = some FormsBallAnswer.yes → a.ribbonLength = Option.none →
      currentStep a = WizardStep.ribbonLength) ∧
    (∀ a : Answers, a.formsBall = some FormsBallAnswer.yes →
      a.ribbonLength = some RibbonLengthAnswer.noRibbon → currentStep a = WizardStep.result) ∧
    (∀ a : Answers, a.formsBall = some FormsBallAnswer.yes →
      (a.ribbonLength = some RibbonLengthAnswer.short ∨
       a.ribbonLength = some RibbonLengthAnswer.moderate ∨
       a.ribbonLength = some RibbonLengthAnswer.long) →
      a.feel = Option.none → currentStep a = WizardStep.feel) ∧
    (∀ a : Answers, a.formsBall = some FormsBallAnswer.yes →
      (a.ribbonLength = some RibbonLengthAnswer.short ∨
       a.ribbonLength = some RibbonLengthAnswer.moderate ∨
       a.ribbonLength = some RibbonLengthAnswer.long) →
      a.feel ≠ Option.none → currentStep a = WizardStep.result) ∧
    stepIndex WizardStep.formsBall = 1 ∧
    stepIndex WizardStep.ribbonLength = 2 ∧
    stepIndex WizardStep.feel = 3 ∧
    stepIndex WizardStep.result = 4 ∧
    (∀ a : Answers, Reachable a →
      (stepIndex (currentStep a) = 1 ∨ stepIndex (currentStep a) = 2 ∨
       stepIndex (currentStep a) = 3 ∨ stepIndex (currentStep a) = 4)) ∧
    (∀ a : Answers, a.formsBall = some FormsBallAnswer.no → stepIndex (currentStep a) = 4) ∧
    (∀ a : Answers, a.formsBall = some FormsBallAnswer.yes →
      a.ribbonLength = some RibbonLengthAnswer.noRibbon → stepIndex (currentStep a) = 4) := by
  refine ⟨by decide, by decide, by decide, by decide, by decide, by decide,
    rfl, rfl, rfl, rfl, ?_, by decide, by decide⟩
  intro a _
  exact (by decide : ∀ a : Answers,
    stepIndex (currentStep a) = 1 ∨ stepIndex (currentStep a) = 2 ∨
    stepIndex (currentStep a) = 3 ∨ stepIndex (currentStep a) = 4) a

/-- Witness for C3 at concrete inputs: a `no` ball lands on the result step,
and the no-ribbon shortcut still reports step 4 of 4. -/
theorem C3_witness :
    currentStep ⟨some FormsBallAnswer.no, Option.none, Option.none⟩ = WizardStep.result ∧
    stepIndex (currentStep ⟨some FormsBallAnswer.yes, some RibbonLengthAnswer.noRibbon, Option.none⟩) = 4 := by
  obtain ⟨_, h2, _, _, _, _, _, _, _, _, _, _, h13⟩ := C3_step_derivation_and_index
  exact ⟨h2 _ rfl, h13 _ rfl rfl⟩

/-- Claim C4: on every answer set, `goBack` from the result step clears
`formsBall` when it is `no`, else clears `ribbonLength` when it is
`noRibbon`, else clears `feel`; from the feel step it clears
`ribbonLength`; from the ribbon step it clears `formsBall`; and from the
first step it leaves the answer set unchanged. -/
theorem C4_goBack_cases :
    (∀ a : Answers, currentStep a = WizardStep.result → a.formsBall = some FormsBallAnswer.no →
      goBack a = { a with formsBall := Option.none }) ∧
    (∀ a : Answers, currentStep a = WizardStep.result → a.formsBall ≠ some FormsBallAnswer.no →
      a.ribbonLength = some RibbonLengthAnswer.noRibbon →
      goBack a = { a with ribbonLength := Option.none }) ∧
    (∀ a : Answers, currentStep a = WizardStep.result → a.formsBall ≠ some FormsBallAnswer.no →
      a.ribbonLength ≠ some RibbonLengthAnswer.noRibbon →
      goBack a = { a with feel := Option.none }) ∧
    (∀ a : Answers, currentStep a = WizardStep.feel →
      goBack a = { a with ribbonLength := Option.none }) ∧
    (∀ a : Answers, currentStep a = WizardStep.ribbonLength →
      goBack a = { a with formsBall := Option.none }) ∧
    (∀ a : Answers, currentStep a = WizardStep.formsBall → goBack a = a) := by
  refine ⟨by decide, by decide, by decide, by decide, by decide, by decide⟩

/-- Witness for C4 at concrete inputs: going back from the Sand result
clears `formsBall`, and going back on the empty answer set is a no-op. -/
theorem C4_witness :
    goBack ⟨some FormsBallAnswer.no, Option.none, Option.none⟩ =
      (⟨Option.none, Option.none, Option.none⟩ : Answers) ∧
    goBack ⟨Option.none, Option.none, Option.none⟩ =
      (⟨Option.none, Option.none, Option.none⟩ : Answers) := by
  obtain ⟨h1, _, _, _, _, h6⟩ := C4_goBack_cases
  exact ⟨h1 _ (by decide) rfl, h6 _ (by decide)⟩

/-- Claim C5, counterexample: at the reachable answer set with only
`formsBall = yes`, the attempt `applyAnswer (feel, gritty)` is ignored
(the wizard is still asking the ribbon question) yet yields a non-initial
answer set, and `goBack` on that answer set clears `formsBall`, so the
earlier field does not keep its value — the round trip as literally
stated fails on ignored (no-op) answer attempts. -/
theorem C5_counterexample :
    Reachable ⟨some FormsBallAnswer.yes, Option.none, Option.none⟩ ∧
    applyAnswer ⟨some FormsBallAnswer.yes, Option.none, Option.none⟩
        (AnswerValue.fl FeelAnswer.gritty) ≠
      (⟨Option.none, Option.none, Option.none⟩ : Answers) ∧
    ¬ undone ⟨some FormsBallAnswer.yes, Option.none, Option.none⟩
        (goBack (applyAnswer ⟨some FormsBallAnswer.yes, Option.none, Option.none⟩
          (AnswerValue.fl FeelAnswer.gritty)))
        (AnswerValue.fl FeelAnswer.gritty) := by
  refine ⟨?_, by decide, by decide⟩
  exact Reachable.answer _ (AnswerValue.fb FormsBallAnswer.yes) Reachable.empty

/-- Claim C5 as amended: for every reachable answer set `A0` and every
answer event that actually modifies it (the answer is accepted at the
current step), `goBack` on the new answer set leaves that field unset and
every field asked earlier than it equal to its value in `A0`. -/
theorem C5_goBack_undoes_applied_answer (A0 : Answers) (fv : AnswerValue)
    (hreach : Reachable A0) (heff : applyAnswer A0 fv ≠ A0) :
    undone A0 (goBack (applyAnswer A0 fv)) fv := by
  have hinv : Invariant A0 := invariant_of_reachable A0 hreach
  exact (by decide : ∀ (A0 : Answers) (fv : AnswerValue), Invariant A0 →
    applyAnswer A0 fv ≠ A0 → undone A0 (goBack (applyAnswer A0 fv)) fv) A0 fv hinv heff

/-- Witness for the amended C5: answering `formsBall = yes` on the empty
answer set and going back leaves `formsBall` unset again. -/
theorem C5_witness :
    undone ⟨Option.none, Option.none, Option.none⟩
      (goBack (applyAnswer ⟨Option.none, Option.none, Option.none⟩
        (AnswerValue.fb FormsBallAnswer.yes)))
      (AnswerValue.fb FormsBallAnswer.yes) :=
  C5_goBack_undoes_applied_answer _ _ Reachable.empty (by decide)

/-- Claim C6: setting a field whose prerequisite is unset is a no-op:
`applyAnswer` returns the answer set unchanged when asked to set
`ribbonLength` while `formsBall` is not `yes`, or to set `feel` while
`ribbonLength` is not one of `short`, `moderate`, `long` (unset or
`noRibbon`); being a total function, it never throws. -/
theorem C6_out_of_order_noop :
    (∀ (a : Answers) (v : RibbonLengthAnswer), a.formsBall ≠ some FormsBallAnswer.yes →
      applyAnswer a (AnswerValue.rb v) = a) ∧
    (∀ (a : Answers) (v : FeelAnswer),
      ¬ (a.ribbonLength = some RibbonLengthAnswer.short ∨
         a.ribbonLength = some RibbonLengthAnswer.moderate ∨
         a.ribbonLength = some RibbonLengthAnswer.long) →
      applyAnswer a (AnswerValue.fl v) = a) := by
  refine ⟨by decide, by decide⟩

/-- Witness for C6 at concrete inputs: a ribbon answer on the empty answer
set and a feel answer right after `formsBall = yes` are both ignored. -/
theorem C6_witness :
    applyAnswer ⟨Option.none, Option.none, Option.none⟩
        (AnswerValue.rb RibbonLengthAnswer.short) =
      (⟨Option.none, Option.none, Option.none⟩ : Answers) ∧
    applyAnswer ⟨some FormsBallAnswer.yes, Option.none, Option.none⟩
        (AnswerValue.fl FeelAnswer.gritty) =
      (⟨some FormsBallAnswer.yes, Option.none, Option.none⟩ : Answers) := by
  obtain ⟨h1, h2⟩ := C6_out_of_order_noop
  exact ⟨h1 _ RibbonLengthAnswer.short (by decide), h2 _ FeelAnswer.gritty (by decide)⟩

/-- Claim C7: every answer set reachable from the empty one via
`applyAnswer`, `goBack` and `reset` satisfies the ordering invariant:
`ribbonLength` is set only when `formsBall = yes`, and `feel` is set only
when `ribbonLength` is `short`, `moderate` or `long`. -/
theorem C7_reachable_invariant (a : Answers) (h : Reachable a) : Invariant a :=
  invariant_of_reachable a h

/-- Witness for C7: the state after answering `yes`, a short ribbon and
going back once is reachable and satisfies the invariant. -/
theorem C7_witness :
    Invariant (goBack (applyAnswer
      (applyAnswer ⟨Option.none, Option.none, Option.none⟩ (AnswerValue.fb FormsBallAnswer.yes))
      (AnswerValue.rb RibbonLengthAnswer.short))) :=
  C7_reachable_invariant _
    (Reachable.back _ (Reachable.answer _ _ (Reachable.answer _ _ Reachable.empty)))

/-- Claim C8: `reset` discards any current answer set and returns the empty
one, so it is idempotent; the derived step after a reset is the first
question and the classifier output of the reset state is `none`. -/
theorem C8_reset_empty_idempotent :
    (∀ a : Answers, reset a = (⟨Option.none, Option.none, Option.none⟩ : Answers)) ∧
    (∀ a : Answers, reset (reset a) = reset a) ∧
    (∀ a : Answers, currentStep (reset a) = WizardStep.formsBall) ∧
    (∀ a : Answers, predictSoilTexture (reset a) = Option.none) :=
  ⟨fun _ => rfl, fun _ => rfl, fun _ => rfl, fun _ => rfl⟩

set_option maxRecDepth 100000 in
/-- Claim C9: `predictSoilTexture` is total over all enum combinations, and
later fields cannot influence a short-circuited result: any two answer sets
with `formsBall = no` get the identical Sand result whatever their
`ribbonLength` and `feel` hold, and any two with `formsBall = yes` and no
ribbon get the identical Loamy sand result whatever their `feel` holds. -/
theorem C9_short_circuit_noninterference :
    (∀ (r r' : Option RibbonLengthAnswer) (f f' : Option FeelAnswer),
      predictSoilTexture ⟨some FormsBallAnswer.no, r, f⟩ =
        predictSoilTexture ⟨some FormsBallAnswer.no, r', f'⟩ ∧
      predictSoilTexture ⟨some FormsBallAnswer.no, r, f⟩ =
        some ⟨"Sand", "Soil does not remain in a ball when squeezed, indicating very low clay and organic matter with dominant sand-sized particles."⟩) ∧
    (∀ f f' : Option FeelAnswer,
      predictSoilTexture ⟨some FormsBallAnswer.yes, some RibbonLengthAnswer.noRibbon, f⟩ =
        predictSoilTexture ⟨some FormsBallAnswer.yes, some RibbonLengthAnswer.noRibbon, f'⟩ ∧
      predictSoilTexture ⟨some FormsBallAnswer.yes, some RibbonLengthAnswer.noRibbon, f⟩ =
        some ⟨"Loamy sand", "Forms a ball but no ribbon when pressed; indicates very low clay with some silt and sand providing slight cohesion."⟩) := by
  refine ⟨by decide, by decide⟩

/-- Claim C10: on every answer set, `goBack` either returns it unchanged —
which happens at the first step — or clears exactly one previously set
field leaving the other two untouched; it never changes two fields and
never writes a new answer value. -/
theorem C10_goBack_frame :
    ∀ a : Answers,
      (currentStep a = WizardStep.formsBall ∧ goBack a = a) ∨
        clearsExactlyOne a (goBack a) := by
  decide

end Cropz
